import Mathlib

/-!
Shallow embedding of
`src/extensions/daisychain-discount-function/src/cart_lines_discounts_generate_run.rs`.

Monetary values and percentages are `f64` in the source; the code only
compares them, takes `min`, and copies them into the output, so they are
embedded as exact rationals (`Rat`), which is order-faithful for all the
finite values these operations manipulate.  The two formatted display
messages are embedded as an inductive `Message` carrying the numeric value
that the Rust format string would render.
-/

/-- Discount classes granted by the calling platform (`schema::DiscountClass`). -/
inductive DiscountClass
  | Order
  | Product
  | Shipping
  deriving DecidableEq, Repr

/-- `DiscountConfig`: the referral configuration deserialized from the
discount metafield.  Fields keep the Rust names. -/
structure DiscountConfig where
  referee_discount_percentage : Rat
  referee_min_order : Rat
  referrer_credit_amount : Rat
  min_referrer_orders : Int
  deriving DecidableEq, Repr

/-- A cart attribute: the attribute node is optional in the input and its
`value` field is itself optional. -/
structure Attr where
  value : Option String
  deriving DecidableEq, Repr

/-- The authenticated customer; `metafield` is the value of the store-credit
metafield when that metafield is present. -/
structure Customer where
  metafield : Option String
  deriving DecidableEq, Repr

/-- `cart.buyer_identity`, whose `customer` is optional. -/
structure BuyerIdentity where
  customer : Option Customer
  deriving DecidableEq, Repr

/-- The cart part of the input: subtotal amount, the two optional cart
attributes, and the optional buyer identity. -/
structure Cart where
  subtotalAmount : Rat
  referral_validated : Option Attr
  referrer_customer_id : Option Attr
  buyer_identity : Option BuyerIdentity
  deriving DecidableEq, Repr

/-- The discount node of the input.  `metafield = none` means the config
metafield is absent; `metafield = some none` means it is present but its
payload fails to deserialize into `DiscountConfig`; `metafield = some (some c)`
means it is present and deserializes to `c`. -/
structure DiscountNode where
  discount_classes : List DiscountClass
  metafield : Option (Option DiscountConfig)
  deriving DecidableEq, Repr

/-- The full input of `cart_lines_discounts_generate_run`. -/
structure Input where
  cart : Cart
  discount : DiscountNode
  deriving DecidableEq, Repr

/-- Modelled from the spec: the schema accessor for the discount config
metafield and its JSON deserialization are generated code that is not under
`src/`.  Per the spec (sections 4.2 and 7b), a metafield that is present but
whose payload fails to deserialize into `DiscountConfig` is treated
identically to an absent metafield, so the effective metafield collapses the
malformed case to `none`. -/
def effectiveMetafield (d : DiscountNode) : Option DiscountConfig :=
  d.metafield.bind id

/-- `schema::OrderDiscountSelectionStrategy`. -/
inductive OrderDiscountSelectionStrategy
  | First
  | Maximum
  deriving DecidableEq, Repr

/-- `schema::OrderSubtotalTarget`. -/
structure OrderSubtotalTarget where
  excluded_cart_line_ids : List String
  deriving DecidableEq, Repr

/-- `schema::OrderDiscountCandidateTarget`. -/
inductive OrderDiscountCandidateTarget
  | OrderSubtotal (target : OrderSubtotalTarget)
  deriving DecidableEq, Repr

/-- The two display messages the function can format.
`referral p` stands for the Rust string `"Referral discount: \x7bp\x7d% off"`
and `storeCredit a` for `"Store credit: $\x7ba:.2\x7d"`; each constructor
carries the numeric value the format string renders. -/
inductive Message
  | referral (p : Rat)
  | storeCredit (a : Rat)
  deriving DecidableEq, Repr

/-- `schema::OrderDiscountCandidateValue`: percentage or fixed amount. -/
inductive OrderDiscountCandidateValue
  | Percentage (value : Rat)
  | FixedAmount (amount : Rat)
  deriving DecidableEq, Repr

/-- `schema::OrderDiscountCandidate`.  `conditions` and
`associated_discount_code` are opaque to this core (it only ever writes
`None`), so they are embedded with `Unit` payloads. -/
structure OrderDiscountCandidate where
  targets : List OrderDiscountCandidateTarget
  message : Option Message
  value : OrderDiscountCandidateValue
  conditions : Option Unit
  associated_discount_code : Option Unit
  deriving DecidableEq, Repr

/-- `schema::OrderDiscountsAddOperation`. -/
structure OrderDiscountsAddOperation where
  selection_strategy : OrderDiscountSelectionStrategy
  candidates : List OrderDiscountCandidate
  deriving DecidableEq, Repr

/-- `schema::CartOperation` (only the variant this function emits). -/
inductive CartOperation
  | OrderDiscountsAdd (op : OrderDiscountsAddOperation)
  deriving DecidableEq, Repr

/-- `schema::CartLinesDiscountsGenerateRunResult`. -/
structure CartLinesDiscountsGenerateRunResult where
  operations : List CartOperation
  deriving DecidableEq, Repr

/-- Accumulating digit reader for `parseDecimal`; fails on a non-digit. -/
def digitsToNatAux : Nat → List Char → Option Nat
  | acc, [] => some acc
  | acc, c :: cs =>
      if c.isDigit then digitsToNatAux (10 * acc + (c.toNat - 48)) cs
      else none

/-- Shallow model of Rust `str::parse::<f64>()`, restricted to plain decimal
notation: an optional sign, integer digits, and an optional fractional part,
with at least one digit overall.  Exponent, infinity and NaN forms are
outside the model.  `none` corresponds to Rust `Err`; otherwise the exact
rational value of the text is returned. -/
def parseDecimal (s : String) : Option Rat :=
  let cs := s.data
  let neg : Bool :=
    match cs with
    | '-' :: _ => true
    | _ => false
  let rest : List Char :=
    match cs with
    | '-' :: r => r
    | '+' :: r => r
    | r => r
  let intPart := rest.takeWhile Char.isDigit
  let rest2 := rest.dropWhile Char.isDigit
  match rest2 with
  | [] =>
      if intPart.isEmpty then none
      else (digitsToNatAux 0 intPart).map
        (fun n => if neg then -mkRat n 1 else mkRat n 1)
  | '.' :: frac =>
      if frac.all Char.isDigit && (!intPart.isEmpty || !frac.isEmpty) then
        match digitsToNatAux 0 intPart, digitsToNatAux 0 frac with
        | some i, some f =>
            let mag : Rat := mkRat (i * 10 ^ frac.length + f) (10 ^ frac.length)
            some (if neg then -mag else mag)
        | _, _ => none
      else none
  | _ => none

/-- Available credits of a customer: the credit metafield value (defaulting
to `"0"` when the metafield is missing) parsed as a number, with parse
failure defaulting to `0` — mirrors
`credits_str.parse::<f64>().unwrap_or(0.0)`. -/
def availableCredits (customer : Customer) : Rat :=
  (parseDecimal (customer.metafield.getD "0")).getD 0

/-- The single operation emitted on either success path: selection strategy
`First`, one candidate targeting the whole order subtotal with no excluded
cart lines, no conditions and no associated discount code. -/
def mkOperation (message : Message) (value : OrderDiscountCandidateValue) :
    CartOperation :=
  CartOperation.OrderDiscountsAdd
    { selection_strategy := OrderDiscountSelectionStrategy.First
      candidates := [{
        targets := [OrderDiscountCandidateTarget.OrderSubtotal
          { excluded_cart_line_ids := [] }]
        message := some message
        value := value
        conditions := none
        associated_discount_code := none }] }

/-- Translation of `cart_lines_discounts_generate_run`.  The Rust function
returns `Result<..>` but never constructs an `Err`, so the embedding is the
total function underneath the uniform `Ok`. -/
def cart_lines_discounts_generate_run (input : Input) :
    CartLinesDiscountsGenerateRunResult :=
  let has_order_discount_class :=
    input.discount.discount_classes.contains DiscountClass.Order
  if !has_order_discount_class then
    { operations := [] }
  else
    let cart_subtotal := input.cart.subtotalAmount
    let has_config_metafield := (effectiveMetafield input.discount).isSome
    if has_config_metafield then
      -- REFERRAL DISCOUNT LOGIC
      let referral_validated :=
        ((input.cart.referral_validated.bind Attr.value).map
          (fun v => v == "true")).getD false
      if !referral_validated then
        { operations := [] }
      else
        let referrer_id := input.cart.referrer_customer_id.bind Attr.value
        if referrer_id.isNone then
          { operations := [] }
        else
          match effectiveMetafield input.discount with
          | none => { operations := [] }
          | some config =>
              if cart_subtotal < config.referee_min_order then
                { operations := [] }
              else
                { operations := [mkOperation
                    (Message.referral config.referee_discount_percentage)
                    (OrderDiscountCandidateValue.Percentage
                      config.referee_discount_percentage)] }
    else
      -- STORE CREDIT DISCOUNT LOGIC
      match input.cart.buyer_identity.bind BuyerIdentity.customer with
      | none => { operations := [] }
      | some customer =>
          let available_credits := availableCredits customer
          if available_credits ≤ 0 then
            { operations := [] }
          else
            let discount_amount := min available_credits cart_subtotal
            if discount_amount ≤ 0 then
              { operations := [] }
            else
              { operations := [mkOperation
                  (Message.storeCredit discount_amount)
                  (OrderDiscountCandidateValue.FixedAmount discount_amount)] }

/-- All candidate values carried by the operations of a result, used to state
the value-bound invariants. -/
def emittedValues (r : CartLinesDiscountsGenerateRunResult) :
    List OrderDiscountCandidateValue :=
  r.operations.flatMap
    (fun op => match op with
      | CartOperation.OrderDiscountsAdd o => o.candidates.map (fun c => c.value))

/-- Replace the discount metafield of an input, leaving everything else
unchanged; used to compare evaluation on related inputs. -/
def withMetafield (input : Input) (m : Option (Option DiscountConfig)) : Input :=
  { input with discount := { input.discount with metafield := m } }

/-- Referral configuration used by the concrete example inputs:
15% off, 50 minimum order. -/
def exConfig : DiscountConfig :=
  { referee_discount_percentage := 15
    referee_min_order := 50
    referrer_credit_amount := 10
    min_referrer_orders := 1 }

/-- Referral-mode input that passes every gate: `Order` class granted,
well-formed config, validated referral, referrer id present, subtotal 100,
no buyer identity. -/
def exInputReferral : Input :=
  { cart := { subtotalAmount := 100
              referral_validated := some ⟨some "true"⟩
              referrer_customer_id := some ⟨some "gid1"⟩
              buyer_identity := none }
    discount := { discount_classes := [DiscountClass.Order]
                  metafield := some (some exConfig) } }

/-- Same input as `exInputReferral` but with no granted discount classes. -/
def exInputNoClass : Input :=
  { cart := { subtotalAmount := 100
              referral_validated := some ⟨some "true"⟩
              referrer_customer_id := some ⟨some "gid1"⟩
              buyer_identity := none }
    discount := { discount_classes := []
                  metafield := some (some exConfig) } }

/-- Store-credit-mode input: no config metafield, logged-in customer with
credit text `"150.00"`, subtotal 100. -/
def exInputCredit : Input :=
  { cart := { subtotalAmount := 100
              referral_validated := none
              referrer_customer_id := none
              buyer_identity := some ⟨some ⟨some "150.00"⟩⟩ }
    discount := { discount_classes := [DiscountClass.Order]
                  metafield := none } }

/-- Store-credit-mode input whose customer credit text does not parse as a
number. -/
def exInputCreditUnparseable : Input :=
  { cart := { subtotalAmount := 100
              referral_validated := none
              referrer_customer_id := none
              buyer_identity := some ⟨some ⟨some "abc"⟩⟩ }
    discount := { discount_classes := [DiscountClass.Order]
                  metafield := none } }

/-- Referral-mode input whose `referral_validated` attribute holds
`"false"`. -/
def exInputNotValidated : Input :=
  { cart := { subtotalAmount := 100
              referral_validated := some ⟨some "false"⟩
              referrer_customer_id := some ⟨some "gid1"⟩
              buyer_identity := none }
    discount := { discount_classes := [DiscountClass.Order]
                  metafield := some (some exConfig) } }

/-- Referral-mode input with a validated referral but no
`referrer_customer_id` attribute. -/
def exInputNoReferrer : Input :=
  { cart := { subtotalAmount := 100
              referral_validated := some ⟨some "true"⟩
              referrer_customer_id := none
              buyer_identity := none }
    discount := { discount_classes := [DiscountClass.Order]
                  metafield := some (some exConfig) } }

/-- Referral-mode input whose `referrer_customer_id` attribute is present
with the empty string as its value. -/
def exInputEmptyReferrer : Input :=
  { cart := { subtotalAmount := 100
              referral_validated := some ⟨some "true"⟩
              referrer_customer_id := some ⟨some ""⟩
              buyer_identity := none }
    discount := { discount_classes := [DiscountClass.Order]
                  metafield := some (some exConfig) } }

/-- Input whose config metafield is present but malformed, with a customer
holding credit text `"50"` and subtotal 100. -/
def exInputMalformedConfig : Input :=
  { cart := { subtotalAmount := 100
              referral_validated := none
              referrer_customer_id := none
              buyer_identity := some ⟨some ⟨some "50"⟩⟩ }
    discount := { discount_classes := [DiscountClass.Order]
                  metafield := some none } }

theorem parseDecimal_zero : parseDecimal "0" = some 0 := by decide

theorem availableCredits_of_metafield_none (cust : Customer)
    (h : cust.metafield = none) : availableCredits cust = 0 := by
  simp [availableCredits, h, parseDecimal_zero]

theorem availableCredits_of_parse_none (cust : Customer) (s : String)
    (hm : cust.metafield = some s) (hp : parseDecimal s = none) :
    availableCredits cust = 0 := by
  simp [availableCredits, hm, hp]

/-- C1: when the granted discount classes do not contain the `Order` class,
the evaluation returns an empty operations list, whatever the rest of the
input holds. -/
theorem order_class_absent_empty (input : Input)
    (h : input.discount.discount_classes.contains DiscountClass.Order = false) :
    (cart_lines_discounts_generate_run input).operations = [] := by
  have h' : DiscountClass.Order ∉ input.discount.discount_classes := by
    simpa using h
  simp [cart_lines_discounts_generate_run, h']

theorem order_class_absent_empty_witness :
    (cart_lines_discounts_generate_run exInputNoClass).operations = [] :=
  order_class_absent_empty exInputNoClass (by decide)

/-- C2: with the `Order` class granted, a well-formed config metafield,
`referral_validated = "true"`, a referrer customer id present, and
subtotal at least `referee_min_order` (inclusive), the output is exactly one
order-subtotal percentage operation whose value is
`referee_discount_percentage`, with the referral message carrying that same
percentage. -/
theorem referral_success_emits_percentage (input : Input) (c : DiscountConfig)
    (hclass : input.discount.discount_classes.contains DiscountClass.Order = true)
    (hm : input.discount.metafield = some (some c))
    (hv : input.cart.referral_validated.bind Attr.value = some "true")
    (hr : (input.cart.referrer_customer_id.bind Attr.value).isSome = true)
    (hmin : c.referee_min_order ≤ input.cart.subtotalAmount) :
    (cart_lines_discounts_generate_run input).operations =
      [mkOperation (Message.referral c.referee_discount_percentage)
        (OrderDiscountCandidateValue.Percentage c.referee_discount_percentage)] := by
  have hclass' : DiscountClass.Order ∈ input.discount.discount_classes := by
    simpa using hclass
  obtain ⟨r, hr'⟩ := Option.isSome_iff_exists.mp hr
  simp [cart_lines_discounts_generate_run, effectiveMetafield, hclass', hm, hv,
    hr', not_lt.mpr hmin]

theorem referral_success_emits_percentage_witness :
    (cart_lines_discounts_generate_run exInputReferral).operations =
      [mkOperation (Message.referral exConfig.referee_discount_percentage)
        (OrderDiscountCandidateValue.Percentage
          exConfig.referee_discount_percentage)] :=
  referral_success_emits_percentage exInputReferral exConfig (by decide)
    (by decide) (by decide) (by decide) (by decide)

/-- C10: the referral branch never inspects the customer: when the referral
gates all pass, exactly one percentage operation is emitted even with no
buyer identity on the cart. -/
theorem referral_ignores_customer (input : Input) (c : DiscountConfig)
    (hclass : input.discount.discount_classes.contains DiscountClass.Order = true)
    (hm : input.discount.metafield = some (some c))
    (hv : input.cart.referral_validated.bind Attr.value = some "true")
    (hr : (input.cart.referrer_customer_id.bind Attr.value).isSome = true)
    (hmin : c.referee_min_order ≤ input.cart.subtotalAmount)
    (hcust : input.cart.buyer_identity = none) :
    (cart_lines_discounts_generate_run input).operations =
      [mkOperation (Message.referral c.referee_discount_percentage)
        (OrderDiscountCandidateValue.Percentage c.referee_discount_percentage)] := by
  have hclass' : DiscountClass.Order ∈ input.discount.discount_classes := by
    simpa using hclass
  obtain ⟨r, hr'⟩ := Option.isSome_iff_exists.mp hr
  simp [cart_lines_discounts_generate_run, effectiveMetafield, hclass', hm, hv,
    hr', not_lt.mpr hmin]

theorem referral_ignores_customer_witness :
    exInputReferral.cart.buyer_identity = none ∧
    (cart_lines_discounts_generate_run exInputReferral).operations =
      [mkOperation (Message.referral exConfig.referee_discount_percentage)
        (OrderDiscountCandidateValue.Percentage
          exConfig.referee_discount_percentage)] :=
  ⟨by decide,
   referral_ignores_customer exInputReferral exConfig (by decide) (by decide)
     (by decide) (by decide) (by decide) (by decide)⟩

/-- C9: in referral mode (well-formed config metafield present, `Order`
class granted), if the `referral_validated` attribute is absent, has no
value, or has any value other than the exact string `"true"`, the output is
empty. -/
theorem referral_not_validated_empty (input : Input) (c : DiscountConfig)
    (hclass : input.discount.discount_classes.contains DiscountClass.Order = true)
    (hm : input.discount.metafield = some (some c))
    (h : input.cart.referral_validated.bind Attr.value = none ∨
      ∃ s, input.cart.referral_validated.bind Attr.value = some s ∧ s ≠ "true") :
    (cart_lines_discounts_generate_run input).operations = [] := by
  have hclass' : DiscountClass.Order ∈ input.discount.discount_classes := by
    simpa using hclass
  rcases h with h | ⟨s, hs, hne⟩
  · simp [cart_lines_discounts_generate_run, effectiveMetafield, hclass', hm, h]
  · simp [cart_lines_discounts_generate_run, effectiveMetafield, hclass', hm,
      hs, hne]

theorem referral_not_validated_empty_witness :
    (cart_lines_discounts_generate_run exInputNotValidated).operations = [] :=
  referral_not_validated_empty exInputNotValidated exConfig (by decide)
    (by decide) (Or.inr ⟨"false", by decide, by decide⟩)

/-- C7 counterexample: an input whose `referrer_customer_id` attribute holds
the empty string passes the referrer gate, and the evaluation emits an
operation instead of the empty list the claim requires. -/
theorem empty_referrer_id_passes_gate :
    exInputEmptyReferrer.cart.referrer_customer_id.bind Attr.value = some "" ∧
    (cart_lines_discounts_generate_run exInputEmptyReferrer).operations ≠ [] := by
  constructor
  · decide
  · decide

/-- C7 (amended): the referrer gate checks only presence, not content: in
referral mode, when the `referrer_customer_id` attribute is absent or has no
value the output is empty; a present empty-string value does not
short-circuit. -/
theorem referrer_id_missing_empty (input : Input) (c : DiscountConfig)
    (hm : input.discount.metafield = some (some c))
    (hr : input.cart.referrer_customer_id.bind Attr.value = none) :
    (cart_lines_discounts_generate_run input).operations = [] := by
  by_cases hclass : DiscountClass.Order ∈ input.discount.discount_classes
  · by_cases hv : (input.cart.referral_validated.bind
        (fun a => Option.map (fun v => v == "true") a.value)).getD false = true
    · simp [cart_lines_discounts_generate_run, effectiveMetafield, hclass, hm,
        hv, hr]
    · simp [cart_lines_discounts_generate_run, effectiveMetafield, hclass, hm,
        hv, hr]
  · simp [cart_lines_discounts_generate_run, hclass]

theorem referrer_id_missing_empty_witness :
    (cart_lines_discounts_generate_run exInputNoReferrer).operations = [] :=
  referrer_id_missing_empty exInputNoReferrer exConfig (by decide) (by decide)

/-- C3: in store-credit mode (no config metafield, `Order` class granted)
with a logged-in customer whose parsed credits are positive, and with
`min(credits, subtotal) > 0`, the output is exactly one fixed-amount
operation whose amount is `min(credits, subtotal)` — in particular the
amount is capped at the cart subtotal. -/
theorem store_credit_emits_min (input : Input) (cust : Customer)
    (hclass : input.discount.discount_classes.contains DiscountClass.Order = true)
    (hm : input.discount.metafield = none)
    (hc : input.cart.buyer_identity.bind BuyerIdentity.customer = some cust)
    (hpos : 0 < availableCredits cust)
    (hminpos : 0 < min (availableCredits cust) input.cart.subtotalAmount) :
    (cart_lines_discounts_generate_run input).operations =
      [mkOperation
        (Message.storeCredit (min (availableCredits cust) input.cart.subtotalAmount))
        (OrderDiscountCandidateValue.FixedAmount
          (min (availableCredits cust) input.cart.subtotalAmount))] := by
  have hclass' : DiscountClass.Order ∈ input.discount.discount_classes := by
    simpa using hclass
  simp [cart_lines_discounts_generate_run, effectiveMetafield, hclass', hm, hc,
    not_le.mpr hpos, not_le.mpr hminpos]

theorem store_credit_emits_min_witness :
    (cart_lines_discounts_generate_run exInputCredit).operations =
      [mkOperation (Message.storeCredit 100)
        (OrderDiscountCandidateValue.FixedAmount 100)] := by
  have h := store_credit_emits_min exInputCredit ⟨some "150.00"⟩ (by decide)
    (by decide) (by decide) (by decide) (by decide)
  simpa using h

/-- C8: in store-credit mode (no config metafield, `Order` class granted),
if the customer is absent, or the credit metafield is missing, or its text
does not parse as a number (treated as 0), or the parsed credits are at most
0, the output is empty. -/
theorem store_credit_ineligible_empty (input : Input)
    (hclass : input.discount.discount_classes.contains DiscountClass.Order = true)
    (hm : input.discount.metafield = none)
    (h : input.cart.buyer_identity.bind BuyerIdentity.customer = none ∨
      ∃ cust, input.cart.buyer_identity.bind BuyerIdentity.customer = some cust ∧
        (cust.metafield = none ∨
         (∃ s, cust.metafield = some s ∧ parseDecimal s = none) ∨
         availableCredits cust ≤ 0)) :
    (cart_lines_discounts_generate_run input).operations = [] := by
  have hclass' : DiscountClass.Order ∈ input.discount.discount_classes := by
    simpa using hclass
  rcases h with h | ⟨cust, hc, hcase⟩
  · simp [cart_lines_discounts_generate_run, effectiveMetafield, hclass', hm, h]
  · have hcred : availableCredits cust ≤ 0 := by
      rcases hcase with hmf | ⟨s, hmf, hp⟩ | hle
      · exact le_of_eq (availableCredits_of_metafield_none cust hmf)
      · exact le_of_eq (availableCredits_of_parse_none cust s hmf hp)
      · exact hle
    simp [cart_lines_discounts_generate_run, effectiveMetafield, hclass', hm,
      hc, hcred]

theorem store_credit_ineligible_empty_witness :
    (cart_lines_discounts_generate_run exInputCreditUnparseable).operations = [] :=
  store_credit_ineligible_empty exInputCreditUnparseable (by decide) (by decide)
    (Or.inr ⟨⟨some "abc"⟩, by decide, Or.inr (Or.inl ⟨"abc", by decide, by decide⟩)⟩)

/-- C4 counterexample: a present-but-malformed config metafield does not
resolve into an empty outcome — with a customer holding positive credits the
evaluation emits a store-credit operation. -/
theorem malformed_config_nonempty_outcome :
    exInputMalformedConfig.discount.metafield = some none ∧
    (cart_lines_discounts_generate_run exInputMalformedConfig).operations ≠ [] := by
  constructor
  · decide
  · decide

/-- C4 (amended): a present config metafield whose payload fails to
deserialize is treated exactly as if no config metafield were present — the
evaluation proceeds in store-credit mode and always returns a well-formed
(possibly non-empty) result, never an error. -/
theorem malformed_config_treated_as_absent (input : Input)
    (h : input.discount.metafield = some none) :
    cart_lines_discounts_generate_run input =
      cart_lines_discounts_generate_run (withMetafield input none) := by
  simp [cart_lines_discounts_generate_run, withMetafield, effectiveMetafield, h]

theorem malformed_config_treated_as_absent_witness :
    cart_lines_discounts_generate_run exInputMalformedConfig =
      cart_lines_discounts_generate_run (withMetafield exInputMalformedConfig none) :=
  malformed_config_treated_as_absent exInputMalformedConfig (by decide)

theorem emittedValues_mkOperation (m : Message) (v : OrderDiscountCandidateValue) :
    emittedValues { operations := [mkOperation m v] } = [v] := rfl

theorem emittedValues_cases (input : Input) :
    emittedValues (cart_lines_discounts_generate_run input) = [] ∨
    (∃ c, effectiveMetafield input.discount = some c ∧
      emittedValues (cart_lines_discounts_generate_run input) =
        [OrderDiscountCandidateValue.Percentage c.referee_discount_percentage]) ∨
    (∃ cust, input.cart.buyer_identity.bind BuyerIdentity.customer = some cust ∧
      0 < availableCredits cust ∧
      0 < min (availableCredits cust) input.cart.subtotalAmount ∧
      emittedValues (cart_lines_discounts_generate_run input) =
        [OrderDiscountCandidateValue.FixedAmount
          (min (availableCredits cust) input.cart.subtotalAmount)]) := by
  simp only [cart_lines_discounts_generate_run]
  repeat' split
  all_goals try exact Or.inl rfl
  · rename_i config heq hlt
    exact Or.inr (Or.inl ⟨config, heq, emittedValues_mkOperation _ _⟩)
  · rename_i customer heq h1 h2
    exact Or.inr (Or.inr ⟨customer, heq, not_le.mp h1, not_le.mp h2,
      emittedValues_mkOperation _ _⟩)

/-- C5: for every input, the operations list is empty or holds exactly one
operation, and an emitted operation carries selection strategy `First`, a
single candidate targeting the whole order subtotal with no excluded line
items, with no conditions and no associated discount code. -/
theorem at_most_one_operation (input : Input) :
    (cart_lines_discounts_generate_run input).operations = [] ∨
    ∃ cand : OrderDiscountCandidate,
      (cart_lines_discounts_generate_run input).operations =
        [CartOperation.OrderDiscountsAdd
          { selection_strategy := OrderDiscountSelectionStrategy.First
            candidates := [cand] }] ∧
      cand.targets = [OrderDiscountCandidateTarget.OrderSubtotal
        { excluded_cart_line_ids := [] }] ∧
      cand.conditions = none ∧
      cand.associated_discount_code = none := by
  simp only [cart_lines_discounts_generate_run]
  repeat' split
  all_goals try exact Or.inl rfl
  all_goals exact Or.inr ⟨_, rfl, rfl, rfl, rfl⟩

/-- C6: with a non-negative subtotal, every emitted fixed amount `a`
satisfies `0 < a` and `a ≤ subtotal`, and every emitted percentage equals
the configured `referee_discount_percentage`. -/
theorem discount_value_bounds (input : Input)
    (hsub : 0 ≤ input.cart.subtotalAmount) :
    (∀ a, OrderDiscountCandidateValue.FixedAmount a ∈
        emittedValues (cart_lines_discounts_generate_run input) →
      0 < a ∧ a ≤ input.cart.subtotalAmount) ∧
    (∀ p, OrderDiscountCandidateValue.Percentage p ∈
        emittedValues (cart_lines_discounts_generate_run input) →
      ∃ c, effectiveMetafield input.discount = some c ∧
        p = c.referee_discount_percentage) := by
  rcases emittedValues_cases input with h | ⟨c, hc, h⟩ | ⟨cust, hcu, h1, h2, h⟩
  · rw [h]
    simp
  · constructor
    · intro a ha
      rw [h] at ha
      simp at ha
    · intro p hp
      rw [h] at hp
      simp at hp
      exact ⟨c, hc, hp⟩
  · constructor
    · intro a ha
      rw [h] at ha
      simp at ha
      subst ha
      exact ⟨h2, min_le_right _ _⟩
    · intro p hp
      rw [h] at hp
      simp at hp

theorem discount_value_bounds_witness :
    0 ≤ exInputCredit.cart.subtotalAmount ∧
    ((∀ a, OrderDiscountCandidateValue.FixedAmount a ∈
        emittedValues (cart_lines_discounts_generate_run exInputCredit) →
      0 < a ∧ a ≤ exInputCredit.cart.subtotalAmount) ∧
    (∀ p, OrderDiscountCandidateValue.Percentage p ∈
        emittedValues (cart_lines_discounts_generate_run exInputCredit) →
      ∃ c, effectiveMetafield exInputCredit.discount = some c ∧
        p = c.referee_discount_percentage)) :=
  ⟨by decide, discount_value_bounds exInputCredit (by decide)⟩
